import Mathlib

/-!
Shallow embedding of the kcauto-kai config slice: the `setPythonConfig`
serialization (actions/config) and the two reducers (reducers/config).
JavaScript values flowing through the config record are modelled by `Value`;
operations that can throw a TypeError (calling `getHours` on a non-Date)
return `Option`.
-/

/-- A JavaScript value as it appears in a ConfigRecord field: `null`, a
boolean, a string, a number (integers suffice for this program), or a `Date`
used as a wall-clock time-of-day (hour/minute pair). -/
inductive Value where
  | null : Value
  | bool : Bool → Value
  | str : String → Value
  | num : Int → Value
  | time : Nat → Nat → Value
deriving DecidableEq, Repr

/-- JavaScript truthiness of a `Value`: `null`, `false`, `""` and `0` are
falsy; every other value (including any Date object) is truthy. -/
def Value.truthy : Value → Bool
  | .null => false
  | .bool b => b
  | .str s => s ≠ ""
  | .num n => n ≠ 0
  | .time _ _ => true

/-- The string a JavaScript Date renders to inside a template literal.  The
real string is environment-dependent (absolute date, timezone, locale); it is
modelled as a fixed non-empty marker built from the hour and minute, which no
claim truth-value depends on. -/
def dateString (h m : Nat) : String :=
  "[Date " ++ toString h ++ ":" ++ toString m ++ "]"

/-- Template-literal interpolation `${v}` of a `Value` into a string. -/
def Value.interp : Value → String
  | .null => "null"
  | .bool true => "true"
  | .bool false => "false"
  | .str s => s
  | .num n => toString n
  | .time h m => dateString h m

/-- JavaScript Date.prototype.getHours as a method access: defined only on Dates;
calling it on any other value throws (modelled by `none`). -/
def getHours : Value → Option Nat
  | .time h _ => some h
  | _ => none

/-- JavaScript Date.prototype.getMinutes, analogous to `getHours`. -/
def getMinutes : Value → Option Nat
  | .time _ m => some m
  | _ => none

/-- JavaScript String.prototype.padStart with arguments 2 and the zero digit: left-pad with zeros to length 2;
strings already of length ≥ 2 are returned unchanged. -/
def padStart2 (s : String) : String :=
  if s.length ≥ 2 then s
  else String.mk (List.replicate (2 - s.length) '0') ++ s

/-- The general per-field normalization (the `switch` in the
`Object.keys(config).reduce` pass of `setPythonConfig`): strict-equality
cases for `true`, `false` and `null`; every other value passes through. -/
def normValue : Value → Value
  | .bool true => .str "True"
  | .bool false => .str "False"
  | .null => .str ""
  | v => v

/-- The flat ConfigRecord: the fields of `jsonConfigDefaults`, each holding a
JavaScript `Value`. -/
structure Config where
  dropzoneActive : Value
  generalProgram : Value
  generalJSTOffset : Value
  generalPause : Value
  scheduledSleepSleepEnabled : Value
  scheduledSleepSleepStartTime : Value
  scheduledSleepSleepLength : Value
  scheduledSleepExpeditionSleepEnabled : Value
  scheduledSleepExpeditionSleepStartTime : Value
  scheduledSleepExpeditionSleepLength : Value
  scheduledSleepCombatSleepEnabled : Value
  scheduledSleepCombatSleepStartTime : Value
  scheduledSleepCombatSleepLength : Value
  expeditionsEnabled : Value
  expeditionsFleet2Enabled : Value
  expeditionsFleet3Enabled : Value
  expeditionsFleet4Enabled : Value
  expeditionsFleet2 : Value
  expeditionsFleet3 : Value
  expeditionsFleet4 : Value
  pvpEnabled : Value
  combatEnabled : Value
  combatEngine : Value
  combatMap : Value
  combatFleetMode : Value
  combatCombatNodes : Value
  combatNodeSelect1 : Value
  combatNodeSelect2 : Value
  combatNodeSelects : Value
  combatFormationsNode : Value
  combatFormationsFormation : Value
  combatFormations : Value
  combatNightBattlesNode : Value
  combatNightBattlesMode : Value
  combatNightBattles : Value
  combatRetreatLimit : Value
  combatRepairLimit : Value
  combatRepairTimeLimit : Value
  combatLBASGroups : Value
  combatLBASGroup1Node1 : Value
  combatLBASGroup1Node2 : Value
  combatLBASGroup2Node1 : Value
  combatLBASGroup2Node2 : Value
  combatLBASGroup3Node1 : Value
  combatLBASGroup3Node2 : Value
  combatForceRetreatNodes : Value
  combatOptionCheckFatigue : Value
  combatOptionReserveDocks : Value
  combatOptionPortCheck : Value
  combatOptionClearStop : Value
  shipSwitcherEnabled : Value
  shipSwitcherSlot1Criteria : Value
  shipSwitcherSlot1Ships : Value
  shipSwitcherSlot2Criteria : Value
  shipSwitcherSlot2Ships : Value
  shipSwitcherSlot3Criteria : Value
  shipSwitcherSlot3Ships : Value
  shipSwitcherSlot4Criteria : Value
  shipSwitcherSlot4Ships : Value
  shipSwitcherSlot5Criteria : Value
  shipSwitcherSlot5Ships : Value
  shipSwitcherSlot6Criteria : Value
  shipSwitcherSlot6Ships : Value
  questsEnabled : Value
deriving DecidableEq, Repr

/-- The Object.keys reduce pass of `setPythonConfig`: `normValue`
applied to every field of the record. -/
def normConfig (c : Config) : Config where
  dropzoneActive := normValue c.dropzoneActive
  generalProgram := normValue c.generalProgram
  generalJSTOffset := normValue c.generalJSTOffset
  generalPause := normValue c.generalPause
  scheduledSleepSleepEnabled := normValue c.scheduledSleepSleepEnabled
  scheduledSleepSleepStartTime := normValue c.scheduledSleepSleepStartTime
  scheduledSleepSleepLength := normValue c.scheduledSleepSleepLength
  scheduledSleepExpeditionSleepEnabled := normValue c.scheduledSleepExpeditionSleepEnabled
  scheduledSleepExpeditionSleepStartTime := normValue c.scheduledSleepExpeditionSleepStartTime
  scheduledSleepExpeditionSleepLength := normValue c.scheduledSleepExpeditionSleepLength
  scheduledSleepCombatSleepEnabled := normValue c.scheduledSleepCombatSleepEnabled
  scheduledSleepCombatSleepStartTime := normValue c.scheduledSleepCombatSleepStartTime
  scheduledSleepCombatSleepLength := normValue c.scheduledSleepCombatSleepLength
  expeditionsEnabled := normValue c.expeditionsEnabled
  expeditionsFleet2Enabled := normValue c.expeditionsFleet2Enabled
  expeditionsFleet3Enabled := normValue c.expeditionsFleet3Enabled
  expeditionsFleet4Enabled := normValue c.expeditionsFleet4Enabled
  expeditionsFleet2 := normValue c.expeditionsFleet2
  expeditionsFleet3 := normValue c.expeditionsFleet3
  expeditionsFleet4 := normValue c.expeditionsFleet4
  pvpEnabled := normValue c.pvpEnabled
  combatEnabled := normValue c.combatEnabled
  combatEngine := normValue c.combatEngine
  combatMap := normValue c.combatMap
  combatFleetMode := normValue c.combatFleetMode
  combatCombatNodes := normValue c.combatCombatNodes
  combatNodeSelect1 := normValue c.combatNodeSelect1
  combatNodeSelect2 := normValue c.combatNodeSelect2
  combatNodeSelects := normValue c.combatNodeSelects
  combatFormationsNode := normValue c.combatFormationsNode
  combatFormationsFormation := normValue c.combatFormationsFormation
  combatFormations := normValue c.combatFormations
  combatNightBattlesNode := normValue c.combatNightBattlesNode
  combatNightBattlesMode := normValue c.combatNightBattlesMode
  combatNightBattles := normValue c.combatNightBattles
  combatRetreatLimit := normValue c.combatRetreatLimit
  combatRepairLimit := normValue c.combatRepairLimit
  combatRepairTimeLimit := normValue c.combatRepairTimeLimit
  combatLBASGroups := normValue c.combatLBASGroups
  combatLBASGroup1Node1 := normValue c.combatLBASGroup1Node1
  combatLBASGroup1Node2 := normValue c.combatLBASGroup1Node2
  combatLBASGroup2Node1 := normValue c.combatLBASGroup2Node1
  combatLBASGroup2Node2 := normValue c.combatLBASGroup2Node2
  combatLBASGroup3Node1 := normValue c.combatLBASGroup3Node1
  combatLBASGroup3Node2 := normValue c.combatLBASGroup3Node2
  combatForceRetreatNodes := normValue c.combatForceRetreatNodes
  combatOptionCheckFatigue := normValue c.combatOptionCheckFatigue
  combatOptionReserveDocks := normValue c.combatOptionReserveDocks
  combatOptionPortCheck := normValue c.combatOptionPortCheck
  combatOptionClearStop := normValue c.combatOptionClearStop
  shipSwitcherEnabled := normValue c.shipSwitcherEnabled
  shipSwitcherSlot1Criteria := normValue c.shipSwitcherSlot1Criteria
  shipSwitcherSlot1Ships := normValue c.shipSwitcherSlot1Ships
  shipSwitcherSlot2Criteria := normValue c.shipSwitcherSlot2Criteria
  shipSwitcherSlot2Ships := normValue c.shipSwitcherSlot2Ships
  shipSwitcherSlot3Criteria := normValue c.shipSwitcherSlot3Criteria
  shipSwitcherSlot3Ships := normValue c.shipSwitcherSlot3Ships
  shipSwitcherSlot4Criteria := normValue c.shipSwitcherSlot4Criteria
  shipSwitcherSlot4Ships := normValue c.shipSwitcherSlot4Ships
  shipSwitcherSlot5Criteria := normValue c.shipSwitcherSlot5Criteria
  shipSwitcherSlot5Ships := normValue c.shipSwitcherSlot5Ships
  shipSwitcherSlot6Criteria := normValue c.shipSwitcherSlot6Criteria
  shipSwitcherSlot6Ships := normValue c.shipSwitcherSlot6Ships
  questsEnabled := normValue c.questsEnabled

/-- Shared shape of the four time-of-day override locals in
`setPythonConfig`: a conditional on the truthiness of the RAW field value;
when truthy, getHours/getMinutes are called (throwing on a non-Date) and the
results are zero-padded to two digits and concatenated; when falsy, the
empty string. -/
def timeOverride (v : Value) : Option String :=
  if v.truthy then do
    let h ← getHours v
    let m ← getMinutes v
    pure (padStart2 (toString h) ++ padStart2 (toString m))
  else pure ""

/-- Shared shape of the three LBAS-group locals in `setPythonConfig`: both
node values are taken from the normalized record; when both are truthy they
are interpolated around a comma, otherwise the empty string. -/
def lbasNodes (n1 n2 : Value) : String :=
  if n1.truthy && n2.truthy then n1.interp ++ "," ++ n2.interp else ""

/-- The `combatOptions` array built in `setPythonConfig`: each of the four
option tags is pushed iff the corresponding RAW config field is truthy, in
the fixed source order. -/
def combatOptions (config : Config) : List String :=
  (if config.combatOptionCheckFatigue.truthy then ["CheckFatigue"] else []) ++
  (if config.combatOptionReserveDocks.truthy then ["ReserveDocks"] else []) ++
  (if config.combatOptionPortCheck.truthy then ["PortCheck"] else []) ++
  (if config.combatOptionClearStop.truthy then ["ClearStop"] else [])

/-- One slot-blanking `if` statement of `setPythonConfig` (slot 1): on the
normalized record, whenever either member of the slot pair is falsy, both
members of that slot are set to the empty string. -/
def blankSlot1 (ct : Config) : Config :=
  if !ct.shipSwitcherSlot1Criteria.truthy || !ct.shipSwitcherSlot1Ships.truthy then
    { ct with shipSwitcherSlot1Criteria := .str "", shipSwitcherSlot1Ships := .str "" }
  else ct

/-- One slot-blanking `if` statement of `setPythonConfig` (slot 2): on the
normalized record, whenever either member of the slot pair is falsy, both
members of that slot are set to the empty string. -/
def blankSlot2 (ct : Config) : Config :=
  if !ct.shipSwitcherSlot2Criteria.truthy || !ct.shipSwitcherSlot2Ships.truthy then
    { ct with shipSwitcherSlot2Criteria := .str "", shipSwitcherSlot2Ships := .str "" }
  else ct

/-- One slot-blanking `if` statement of `setPythonConfig` (slot 3): on the
normalized record, whenever either member of the slot pair is falsy, both
members of that slot are set to the empty string. -/
def blankSlot3 (ct : Config) : Config :=
  if !ct.shipSwitcherSlot3Criteria.truthy || !ct.shipSwitcherSlot3Ships.truthy then
    { ct with shipSwitcherSlot3Criteria := .str "", shipSwitcherSlot3Ships := .str "" }
  else ct

/-- One slot-blanking `if` statement of `setPythonConfig` (slot 4): on the
normalized record, whenever either member of the slot pair is falsy, both
members of that slot are set to the empty string. -/
def blankSlot4 (ct : Config) : Config :=
  if !ct.shipSwitcherSlot4Criteria.truthy || !ct.shipSwitcherSlot4Ships.truthy then
    { ct with shipSwitcherSlot4Criteria := .str "", shipSwitcherSlot4Ships := .str "" }
  else ct

/-- One slot-blanking `if` statement of `setPythonConfig` (slot 5): on the
normalized record, whenever either member of the slot pair is falsy, both
members of that slot are set to the empty string. -/
def blankSlot5 (ct : Config) : Config :=
  if !ct.shipSwitcherSlot5Criteria.truthy || !ct.shipSwitcherSlot5Ships.truthy then
    { ct with shipSwitcherSlot5Criteria := .str "", shipSwitcherSlot5Ships := .str "" }
  else ct

/-- One slot-blanking `if` statement of `setPythonConfig` (slot 6): on the
normalized record, whenever either member of the slot pair is falsy, both
members of that slot are set to the empty string. -/
def blankSlot6 (ct : Config) : Config :=
  if !ct.shipSwitcherSlot6Criteria.truthy || !ct.shipSwitcherSlot6Ships.truthy then
    { ct with shipSwitcherSlot6Criteria := .str "", shipSwitcherSlot6Ships := .str "" }
  else ct

/-- The six sequential slot-blanking statements of `setPythonConfig`, in
source order. -/
def blankSlots (ct : Config) : Config :=
  blankSlot6 (blankSlot5 (blankSlot4 (blankSlot3 (blankSlot2 (blankSlot1 ct)))))

/-- The literal `pythonConfig` line array of `setPythonConfig`, abstracted
over the already-computed locals it mentions: the (normalized, slot-blanked)
record, the four time-of-day override strings, the three LBAS-group strings
and the `combatOptions` array. -/
def pythonConfigArray (configTemp : Config)
    (scheduledSleepSleepStartTime scheduledSleepExpeditionSleepStartTime
      scheduledSleepCombatSleepStartTime combatRepairTimeLimit
      combatLBASGroup1Nodes combatLBASGroup2Nodes combatLBASGroup3Nodes : String)
    (opts : List String) : List String := [
    "[General]",
    "Program: " ++ configTemp.generalProgram.interp,
    "JSTOffset: " ++ configTemp.generalJSTOffset.interp,
    "Pause: " ++ configTemp.generalPause.interp,
    "",
    "[ScheduledSleep]",
    "SleepEnabled: " ++ configTemp.scheduledSleepSleepEnabled.interp,
    "SleepStartTime: " ++ scheduledSleepSleepStartTime,
    "SleepLength: " ++ configTemp.scheduledSleepSleepLength.interp,
    "ExpeditionSleepEnabled: " ++ configTemp.scheduledSleepExpeditionSleepEnabled.interp,
    "ExpeditionSleepStartTime: " ++ scheduledSleepExpeditionSleepStartTime,
    "ExpeditionSleepLength: " ++ configTemp.scheduledSleepExpeditionSleepLength.interp,
    "CombatSleepEnabled: " ++ configTemp.scheduledSleepCombatSleepEnabled.interp,
    "CombatSleepStartTime: " ++ scheduledSleepCombatSleepStartTime,
    "CombatSleepLength: " ++ configTemp.scheduledSleepCombatSleepLength.interp,
    "",
    "[Expeditions]",
    "Enabled: " ++ configTemp.expeditionsEnabled.interp,
    "Fleet2: " ++ configTemp.expeditionsFleet2.interp,
    "Fleet3: " ++ configTemp.expeditionsFleet3.interp,
    "Fleet4: " ++ configTemp.expeditionsFleet4.interp,
    "",
    "[PvP]",
    "Enabled: " ++ configTemp.pvpEnabled.interp,
    "",
    "[Combat]",
    "Enabled: " ++ configTemp.combatEnabled.interp,
    "Engine: " ++ configTemp.combatEngine.interp,
    "Map: " ++ configTemp.combatMap.interp,
    "FleetMode: " ++ configTemp.combatFleetMode.interp,
    "CombatNodes: " ++ configTemp.combatCombatNodes.interp,
    "NodeSelects: " ++ configTemp.combatNodeSelects.interp,
    "Formations: " ++ configTemp.combatFormations.interp,
    "NightBattles: " ++ configTemp.combatNightBattles.interp,
    "RetreatLimit: " ++ configTemp.combatRetreatLimit.interp,
    "RepairLimit: " ++ configTemp.combatRepairLimit.interp,
    "RepairTimeLimit: " ++ combatRepairTimeLimit,
    "LBASGroups: " ++ configTemp.combatLBASGroups.interp,
    "LBASGroup1Nodes: " ++ combatLBASGroup1Nodes,
    "LBASGroup2Nodes: " ++ combatLBASGroup2Nodes,
    "LBASGroup3Nodes: " ++ combatLBASGroup3Nodes,
    "ForceRetreatNodes: " ++ configTemp.combatForceRetreatNodes.interp,
    "MiscOptions: " ++ String.intercalate "," opts,
    "",
    "[ShipSwitcher]",
    "Enabled: " ++ configTemp.shipSwitcherEnabled.interp,
    "Slot1Criteria: " ++ configTemp.shipSwitcherSlot1Criteria.interp,
    "Slot1Ships: " ++ configTemp.shipSwitcherSlot1Ships.interp,
    "Slot2Criteria: " ++ configTemp.shipSwitcherSlot2Criteria.interp,
    "Slot2Ships: " ++ configTemp.shipSwitcherSlot2Ships.interp,
    "Slot3Criteria: " ++ configTemp.shipSwitcherSlot3Criteria.interp,
    "Slot3Ships: " ++ configTemp.shipSwitcherSlot3Ships.interp,
    "Slot4Criteria: " ++ configTemp.shipSwitcherSlot4Criteria.interp,
    "Slot4Ships: " ++ configTemp.shipSwitcherSlot4Ships.interp,
    "Slot5Criteria: " ++ configTemp.shipSwitcherSlot5Criteria.interp,
    "Slot5Ships: " ++ configTemp.shipSwitcherSlot5Ships.interp,
    "Slot6Criteria: " ++ configTemp.shipSwitcherSlot6Criteria.interp,
    "Slot6Ships: " ++ configTemp.shipSwitcherSlot6Ships.interp,
    "",
    "[Quests]",
    "Enabled: " ++ configTemp.questsEnabled.interp
  ]

/-- The serialization inside the `setPythonConfig` thunk: the normalization
pass, the four time-of-day overrides (the only steps that can throw, modelled
by the `Option` binds), the three LBAS-group locals, the `combatOptions`
array, the six slot-blanking statements, then the literal `pythonConfig`
line array that is dispatched. -/
def setPythonConfig (config : Config) : Option (List String) := do
  let configTemp := normConfig config
  let scheduledSleepSleepStartTime ← timeOverride config.scheduledSleepSleepStartTime
  let scheduledSleepExpeditionSleepStartTime ← timeOverride config.scheduledSleepExpeditionSleepStartTime
  let scheduledSleepCombatSleepStartTime ← timeOverride config.scheduledSleepCombatSleepStartTime
  let combatRepairTimeLimit ← timeOverride config.combatRepairTimeLimit
  let combatLBASGroup1Nodes := lbasNodes configTemp.combatLBASGroup1Node1 configTemp.combatLBASGroup1Node2
  let combatLBASGroup2Nodes := lbasNodes configTemp.combatLBASGroup2Node1 configTemp.combatLBASGroup2Node2
  let combatLBASGroup3Nodes := lbasNodes configTemp.combatLBASGroup3Node1 configTemp.combatLBASGroup3Node2
  let opts := combatOptions config
  let configTemp := blankSlots configTemp
  pure (pythonConfigArray configTemp scheduledSleepSleepStartTime
    scheduledSleepExpeditionSleepStartTime scheduledSleepCombatSleepStartTime
    combatRepairTimeLimit combatLBASGroup1Nodes combatLBASGroup2Nodes
    combatLBASGroup3Nodes opts)

/-- The `jsonConfigDefaults` table from reducers/config.  Two entries are
environment-dependent in the source and are fixed here at UTC: the JST
offset (timezone offset 0 gives -9) and the Date defaults, which are
midnight for the three sleep-start times and 00:30 for the repair time
limit. -/
def jsonConfigDefaults : Config where
  dropzoneActive := .bool false
  generalProgram := .str "Chrome"
  generalJSTOffset := .num (-9)
  generalPause := .bool false
  scheduledSleepSleepEnabled := .bool true
  scheduledSleepSleepStartTime := .time 0 0
  scheduledSleepSleepLength := .str "4"
  scheduledSleepExpeditionSleepEnabled := .bool false
  scheduledSleepExpeditionSleepStartTime := .time 0 0
  scheduledSleepExpeditionSleepLength := .str "3"
  scheduledSleepCombatSleepEnabled := .bool false
  scheduledSleepCombatSleepStartTime := .time 0 0
  scheduledSleepCombatSleepLength := .str "5"
  expeditionsEnabled := .bool true
  expeditionsFleet2Enabled := .bool true
  expeditionsFleet3Enabled := .bool true
  expeditionsFleet4Enabled := .bool true
  expeditionsFleet2 := .str "2"
  expeditionsFleet3 := .str "5"
  expeditionsFleet4 := .str "38"
  pvpEnabled := .bool true
  combatEnabled := .bool false
  combatEngine := .str "live"
  combatMap := .str "1-1"
  combatFleetMode := .str ""
  combatCombatNodes := .null
  combatNodeSelect1 := .null
  combatNodeSelect2 := .null
  combatNodeSelects := .null
  combatFormationsNode := .null
  combatFormationsFormation := .null
  combatFormations := .null
  combatNightBattlesNode := .null
  combatNightBattlesMode := .null
  combatNightBattles := .null
  combatRetreatLimit := .str "heavy"
  combatRepairLimit := .str "moderate"
  combatRepairTimeLimit := .time 0 30
  combatLBASGroups := .null
  combatLBASGroup1Node1 := .null
  combatLBASGroup1Node2 := .null
  combatLBASGroup2Node1 := .null
  combatLBASGroup2Node2 := .null
  combatLBASGroup3Node1 := .null
  combatLBASGroup3Node2 := .null
  combatForceRetreatNodes := .null
  combatOptionCheckFatigue := .bool false
  combatOptionReserveDocks := .bool false
  combatOptionPortCheck := .bool false
  combatOptionClearStop := .bool false
  shipSwitcherEnabled := .bool false
  shipSwitcherSlot1Criteria := .null
  shipSwitcherSlot1Ships := .null
  shipSwitcherSlot2Criteria := .null
  shipSwitcherSlot2Ships := .null
  shipSwitcherSlot3Criteria := .null
  shipSwitcherSlot3Ships := .null
  shipSwitcherSlot4Criteria := .null
  shipSwitcherSlot4Ships := .null
  shipSwitcherSlot5Criteria := .null
  shipSwitcherSlot5Ships := .null
  shipSwitcherSlot6Criteria := .null
  shipSwitcherSlot6Ships := .null
  questsEnabled := .bool true

/-- Modelled from the spec: the action-type constants live in the types
module, which is not part of this slice; the spec only needs them to be the
two designated set-actions plus arbitrary other action types, all pairwise
distinct. -/
inductive ActionType where
  | SET_JSON_CONFIG : ActionType
  | SET_PYTHON_CONFIG : ActionType
  | other : String → ActionType
deriving DecidableEq, Repr

/-- A dispatched action: a type tag and a carried config payload. -/
structure ReduxAction (α : Type) where
  type : ActionType
  config : α

/-- The `setJsonConfigSuccess` action creator. -/
def setJsonConfigSuccess (config : Config) : ReduxAction Config :=
  { type := .SET_JSON_CONFIG, config := config }

/-- The `setPythonConfigSuccess` action creator. -/
def setPythonConfigSuccess (config : List String) : ReduxAction (List String) :=
  { type := .SET_PYTHON_CONFIG, config := config }

/-- The `jsonConfig` reducer.  The `state = jsonConfigDefaults` default
parameter is modelled by an `Option` state, `none` standing for the absent
initial state. -/
def jsonConfig (state : Option Config) (action : ReduxAction Config) : Config :=
  let state := state.getD jsonConfigDefaults
  match action.type with
  | .SET_JSON_CONFIG => action.config
  | _ => state

/-- The `pythonConfig` reducer, whose default state is the empty array. -/
def pythonConfig (state : Option (List String)) (action : ReduxAction (List String)) : List String :=
  let state := state.getD []
  match action.type with
  | .SET_PYTHON_CONFIG => action.config
  | _ => state

/-! ## Derived constants and predicates used by the verification -/

/-- A time-of-day field value on which the serialization cannot throw:
either falsy (the truthiness guard short-circuits) or an actual Date. -/
def timeFieldSafe (v : Value) : Prop :=
  v.truthy = false ∨ ∃ h m, v = Value.time h m

/-- The serialized output of the default ConfigRecord, written out literally;
used as a concrete test vector. -/
def defaultLines : List String :=
  ["[General]", "Program: Chrome", "JSTOffset: -9", "Pause: False", "",
   "[ScheduledSleep]", "SleepEnabled: True", "SleepStartTime: 0000",
   "SleepLength: 4", "ExpeditionSleepEnabled: False",
   "ExpeditionSleepStartTime: 0000", "ExpeditionSleepLength: 3",
   "CombatSleepEnabled: False", "CombatSleepStartTime: 0000",
   "CombatSleepLength: 5", "", "[Expeditions]", "Enabled: True", "Fleet2: 2",
   "Fleet3: 5", "Fleet4: 38", "", "[PvP]", "Enabled: True", "", "[Combat]",
   "Enabled: False", "Engine: live", "Map: 1-1", "FleetMode: ",
   "CombatNodes: ", "NodeSelects: ", "Formations: ", "NightBattles: ",
   "RetreatLimit: heavy", "RepairLimit: moderate", "RepairTimeLimit: 0030",
   "LBASGroups: ", "LBASGroup1Nodes: ", "LBASGroup2Nodes: ",
   "LBASGroup3Nodes: ", "ForceRetreatNodes: ", "MiscOptions: ", "",
   "[ShipSwitcher]", "Enabled: False", "Slot1Criteria: ", "Slot1Ships: ",
   "Slot2Criteria: ", "Slot2Ships: ", "Slot3Criteria: ", "Slot3Ships: ",
   "Slot4Criteria: ", "Slot4Ships: ", "Slot5Criteria: ", "Slot5Ships: ",
   "Slot6Criteria: ", "Slot6Ships: ", "", "[Quests]", "Enabled: True"]

/-- The fixed layout of the output: `Sum.inl` entries are lines that are
byte-for-byte fixed (section headers and the blank separators), `Sum.inr`
entries give the key of a `Key: Value` line. -/
def lineShape : List (String ⊕ String) :=
  [.inl "[General]", .inr "Program", .inr "JSTOffset", .inr "Pause", .inl "",
   .inl "[ScheduledSleep]", .inr "SleepEnabled", .inr "SleepStartTime",
   .inr "SleepLength", .inr "ExpeditionSleepEnabled",
   .inr "ExpeditionSleepStartTime", .inr "ExpeditionSleepLength",
   .inr "CombatSleepEnabled", .inr "CombatSleepStartTime",
   .inr "CombatSleepLength", .inl "",
   .inl "[Expeditions]", .inr "Enabled", .inr "Fleet2", .inr "Fleet3",
   .inr "Fleet4", .inl "",
   .inl "[PvP]", .inr "Enabled", .inl "",
   .inl "[Combat]", .inr "Enabled", .inr "Engine", .inr "Map",
   .inr "FleetMode", .inr "CombatNodes", .inr "NodeSelects",
   .inr "Formations", .inr "NightBattles", .inr "RetreatLimit",
   .inr "RepairLimit", .inr "RepairTimeLimit", .inr "LBASGroups",
   .inr "LBASGroup1Nodes", .inr "LBASGroup2Nodes", .inr "LBASGroup3Nodes",
   .inr "ForceRetreatNodes", .inr "MiscOptions", .inl "",
   .inl "[ShipSwitcher]", .inr "Enabled", .inr "Slot1Criteria",
   .inr "Slot1Ships", .inr "Slot2Criteria", .inr "Slot2Ships",
   .inr "Slot3Criteria", .inr "Slot3Ships", .inr "Slot4Criteria",
   .inr "Slot4Ships", .inr "Slot5Criteria", .inr "Slot5Ships",
   .inr "Slot6Criteria", .inr "Slot6Ships", .inl "",
   .inl "[Quests]", .inr "Enabled"]

/-- The default record with slot 1 criteria set to boolean false and ships
to a non-empty string. -/
def c10Config : Config :=
  { jsonConfigDefaults with
      shipSwitcherSlot1Criteria := Value.bool false,
      shipSwitcherSlot1Ships := Value.str "ShipA" }


/-! ## Helper lemmas -/

theorem timeOverride_isSome {v : Value} (hv : timeFieldSafe v) :
    ∃ s, timeOverride v = some s := by
  rcases hv with hf | ⟨h, m, rfl⟩
  · exact ⟨"", by simp [timeOverride, hf]⟩
  · exact ⟨padStart2 (toString h) ++ padStart2 (toString m),
      by simp [timeOverride, getHours, getMinutes, Value.truthy]⟩

theorem timeOverride_time (h m : Nat) :
    timeOverride (Value.time h m) =
      some (padStart2 (toString h) ++ padStart2 (toString m)) := by
  simp [timeOverride, getHours, getMinutes, Value.truthy]

theorem setPythonConfig_eq {c : Config} {lines : List String}
    (h : setPythonConfig c = some lines) :
    ∃ s1 s2 s3 s4,
      timeOverride c.scheduledSleepSleepStartTime = some s1 ∧
      timeOverride c.scheduledSleepExpeditionSleepStartTime = some s2 ∧
      timeOverride c.scheduledSleepCombatSleepStartTime = some s3 ∧
      timeOverride c.combatRepairTimeLimit = some s4 ∧
      lines = pythonConfigArray (blankSlots (normConfig c)) s1 s2 s3 s4
        (lbasNodes (normConfig c).combatLBASGroup1Node1 (normConfig c).combatLBASGroup1Node2)
        (lbasNodes (normConfig c).combatLBASGroup2Node1 (normConfig c).combatLBASGroup2Node2)
        (lbasNodes (normConfig c).combatLBASGroup3Node1 (normConfig c).combatLBASGroup3Node2)
        (combatOptions c) := by
  unfold setPythonConfig at h
  cases e1 : timeOverride c.scheduledSleepSleepStartTime with
  | none => simp [e1] at h
  | some s1 =>
    cases e2 : timeOverride c.scheduledSleepExpeditionSleepStartTime with
    | none => simp [e1, e2] at h
    | some s2 =>
      cases e3 : timeOverride c.scheduledSleepCombatSleepStartTime with
      | none => simp [e1, e2, e3] at h
      | some s3 =>
        cases e4 : timeOverride c.combatRepairTimeLimit with
        | none => simp [e1, e2, e3, e4] at h
        | some s4 =>
          refine ⟨s1, s2, s3, s4, rfl, rfl, rfl, rfl, ?_⟩
          simp [e1, e2, e3, e4] at h
          exact h.symm

theorem setPythonConfig_defaults :
    setPythonConfig jsonConfigDefaults = some defaultLines := by rfl

/-! ## C1 -/

/-- C1 (counterexample): the serialization is not total over records whose
fields range over null/boolean/string/number/TimeOfDay.  A truthy non-Date
in a time-of-day field (here the string "abc" in
`scheduledSleepSleepStartTime`) makes the source call `.getHours()` on a
non-Date, a thrown TypeError, modelled by `none`: no output sequence is
produced. -/
theorem setPythonConfig_throws_on_string_time :
    setPythonConfig
      { jsonConfigDefaults with scheduledSleepSleepStartTime := Value.str "abc" } =
      none := by rfl

/-- C1 (amended): the serialization is total and produces an output sequence
provided each of the four time-of-day fields (the three sleep start times
and the repair time limit) is either falsy or an actual TimeOfDay; no other
field can make it throw. -/
theorem setPythonConfig_total_timeSafe (c : Config)
    (h1 : timeFieldSafe c.scheduledSleepSleepStartTime)
    (h2 : timeFieldSafe c.scheduledSleepExpeditionSleepStartTime)
    (h3 : timeFieldSafe c.scheduledSleepCombatSleepStartTime)
    (h4 : timeFieldSafe c.combatRepairTimeLimit) :
    ∃ lines, setPythonConfig c = some lines := by
  obtain ⟨s1, e1⟩ := timeOverride_isSome h1
  obtain ⟨s2, e2⟩ := timeOverride_isSome h2
  obtain ⟨s3, e3⟩ := timeOverride_isSome h3
  obtain ⟨s4, e4⟩ := timeOverride_isSome h4
  rw [← Option.isSome_iff_exists]
  unfold setPythonConfig
  simp [e1, e2, e3, e4]

/-- C1 witness: the amended totality theorem applied to the default record,
whose four time fields are all Dates. -/
theorem setPythonConfig_total_timeSafe_witness :
    (setPythonConfig jsonConfigDefaults).isSome = true := by
  obtain ⟨lines, hl⟩ := setPythonConfig_total_timeSafe jsonConfigDefaults
    (Or.inr ⟨0, 0, rfl⟩) (Or.inr ⟨0, 0, rfl⟩) (Or.inr ⟨0, 0, rfl⟩)
    (Or.inr ⟨0, 30, rfl⟩)
  rw [hl]
  rfl

/-! ## C2 -/

theorem pythonConfigArray_length (ct : Config) (s1 s2 s3 s4 g1 g2 g3 : String)
    (opts : List String) :
    (pythonConfigArray ct s1 s2 s3 s4 g1 g2 g3 opts).length = 61 := rfl

theorem pythonConfigArray_layout (ct : Config) (s1 s2 s3 s4 g1 g2 g3 : String)
    (opts : List String) (i : Nat) (hi : i < lineShape.length) :
    match lineShape.getD i (Sum.inl "") with
    | Sum.inl fixed => (pythonConfigArray ct s1 s2 s3 s4 g1 g2 g3 opts).getD i "" = fixed
    | Sum.inr key =>
        ∃ v, (pythonConfigArray ct s1 s2 s3 s4 g1 g2 g3 opts).getD i "" = key ++ ": " ++ v := by
  have h61 : lineShape.length = 61 := rfl
  rw [h61] at hi
  interval_cases i <;>
    first
      | exact rfl
      | exact ⟨_, rfl⟩

/-- C2: whenever the serialization produces an output, the lines follow the
fixed section layout: sections and keys in the documented order, one blank
line between consecutive sections, and every non-blank non-header line of
the exact form `Key: Value` (single space after the colon, value possibly
empty). -/
theorem C2_output_layout (c : Config) (lines : List String)
    (h : setPythonConfig c = some lines) :
    lines.length = lineShape.length ∧
    ∀ i, i < lineShape.length →
      match lineShape.getD i (Sum.inl "") with
      | Sum.inl fixed => lines.getD i "" = fixed
      | Sum.inr key => ∃ v, lines.getD i "" = key ++ ": " ++ v := by
  obtain ⟨s1, s2, s3, s4, _, _, _, _, rfl⟩ := setPythonConfig_eq h
  exact ⟨rfl, fun i hi => pythonConfigArray_layout _ s1 s2 s3 s4 _ _ _ _ i hi⟩

/-- C2 witness: the layout theorem applied to the default record and its
serialized output. -/
theorem C2_output_layout_witness :
    defaultLines.length = lineShape.length ∧
    defaultLines.getD 1 "" = "Program" ++ ": " ++ "Chrome" := by
  obtain ⟨hlen, -⟩ :=
    C2_output_layout jsonConfigDefaults defaultLines (by rfl)
  exact ⟨hlen, rfl⟩

/-! ## C9 -/

/-- C9: on every input on which the serialization succeeds (not only the
default one), the output has exactly 61 lines, and the 7 section headers and
6 blank separators sit at the same fixed indices regardless of the field
values; only the text after `Key: ` varies. -/
theorem C9_fixed_skeleton (c : Config) (lines : List String)
    (h : setPythonConfig c = some lines) :
    lines.length = 61 ∧
    lines.getD 0 "" = "[General]" ∧ lines.getD 5 "" = "[ScheduledSleep]" ∧
    lines.getD 16 "" = "[Expeditions]" ∧ lines.getD 22 "" = "[PvP]" ∧
    lines.getD 25 "" = "[Combat]" ∧ lines.getD 44 "" = "[ShipSwitcher]" ∧
    lines.getD 59 "" = "[Quests]" ∧
    lines.getD 4 "" = "" ∧ lines.getD 15 "" = "" ∧ lines.getD 21 "" = "" ∧
    lines.getD 24 "" = "" ∧ lines.getD 43 "" = "" ∧ lines.getD 58 "" = "" := by
  obtain ⟨s1, s2, s3, s4, _, _, _, _, rfl⟩ := setPythonConfig_eq h
  exact ⟨rfl, rfl, rfl, rfl, rfl, rfl, rfl, rfl, rfl, rfl, rfl, rfl, rfl, rfl⟩

/-- C9 witness: the skeleton theorem applied to the default record. -/
theorem C9_fixed_skeleton_witness :
    defaultLines.length = 61 ∧ defaultLines.getD 59 "" = "[Quests]" := by
  obtain ⟨hlen, _, _, _, _, _, _, hq, _⟩ :=
    C9_fixed_skeleton jsonConfigDefaults defaultLines setPythonConfig_defaults
  exact ⟨hlen, hq⟩

/-! ## C3 -/

/-- C3: the general per-field normalization serializes boolean true as the
text True, boolean false as False, null as the empty string, and passes
strings and numbers through as their natural string form. -/
theorem C3_normValue_spec :
    (normValue (Value.bool true)).interp = "True" ∧
    (normValue (Value.bool false)).interp = "False" ∧
    (normValue Value.null).interp = "" ∧
    (∀ s, normValue (Value.str s) = Value.str s ∧ (Value.str s).interp = s) ∧
    (∀ n, normValue (Value.num n) = Value.num n ∧ (Value.num n).interp = toString n) :=
  ⟨rfl, rfl, rfl, fun _ => ⟨rfl, rfl⟩, fun _ => ⟨rfl, rfl⟩⟩

/-! ## C4 -/

/-- For n below 100 the padded string is exactly the two decimal digits of
n: tens digit then ones digit. -/
theorem padStart2_two_digits (n : Nat) (hn : n < 100) :
    padStart2 (toString n) =
      String.mk [Char.ofNat (48 + n / 10), Char.ofNat (48 + n % 10)] := by
  interval_cases n <;> rfl

/-- C4: a truthy time-of-day field formats as zero-padded 2-digit hour
followed by zero-padded 2-digit minute (no separator); a null field formats
as the empty string; and each of the three sleep-start-time lines and the
repair-time-limit line of the output carries exactly that formatted
value. -/
theorem C4_time_format :
    (∀ h m, timeOverride (Value.time h m) =
        some (padStart2 (toString h) ++ padStart2 (toString m))) ∧
    (∀ h m, h < 24 → m < 60 →
        timeOverride (Value.time h m) =
          some (String.mk [Char.ofNat (48 + h / 10), Char.ofNat (48 + h % 10),
            Char.ofNat (48 + m / 10), Char.ofNat (48 + m % 10)])) ∧
    timeOverride Value.null = some "" ∧
    timeOverride (Value.time 9 5) = some "0905" ∧
    timeOverride (Value.time 0 0) = some "0000" ∧
    timeOverride (Value.time 23 59) = some "2359" ∧
    (∀ c lines s, setPythonConfig c = some lines →
        timeOverride c.scheduledSleepSleepStartTime = some s →
        lines.getD 7 "" = "SleepStartTime: " ++ s) ∧
    (∀ c lines s, setPythonConfig c = some lines →
        timeOverride c.scheduledSleepExpeditionSleepStartTime = some s →
        lines.getD 10 "" = "ExpeditionSleepStartTime: " ++ s) ∧
    (∀ c lines s, setPythonConfig c = some lines →
        timeOverride c.scheduledSleepCombatSleepStartTime = some s →
        lines.getD 13 "" = "CombatSleepStartTime: " ++ s) ∧
    (∀ c lines s, setPythonConfig c = some lines →
        timeOverride c.combatRepairTimeLimit = some s →
        lines.getD 36 "" = "RepairTimeLimit: " ++ s) := by
  refine ⟨timeOverride_time, ?_, rfl, rfl, rfl, rfl, ?_, ?_, ?_, ?_⟩
  · intro h m hh hm
    rw [timeOverride_time, padStart2_two_digits h (by omega),
      padStart2_two_digits m (by omega)]
    rfl
  all_goals {
    intro c lines s hl hs
    obtain ⟨s1, s2, s3, s4, e1, e2, e3, e4, rfl⟩ := setPythonConfig_eq hl
    first
      | rw [e1] at hs | rw [e2] at hs | rw [e3] at hs | rw [e4] at hs
    cases hs
    rfl
  }

/-- C4 witness: the format theorem applied at hour 9, minute 5 and at the
repair time limit of the default record, which is of 00:30. -/
theorem C4_time_format_witness :
    timeOverride (Value.time 9 5) =
      some (String.mk [Char.ofNat 48, Char.ofNat 57, Char.ofNat 48, Char.ofNat 53]) ∧
    defaultLines.getD 36 "" = "RepairTimeLimit: " ++ "0030" := by
  constructor
  · exact C4_time_format.2.1 9 5 (by decide) (by decide)
  · exact C4_time_format.2.2.2.2.2.2.2.2.2 jsonConfigDefaults defaultLines
      "0030" (by rfl) (by rfl)

/-! ## C5 -/

/-- C5: an LBAS group value is the comma-join of the two normalized node
values when both are truthy, and the empty string as soon as either is falsy
(null, empty string or zero); and each of the three LBASGroup lines of the
output carries exactly the value built this way from the normalized node
fields. -/
theorem C5_lbas_pairs :
    (∀ n1 n2 : Value, n1.truthy = true → n2.truthy = true →
        lbasNodes n1 n2 = n1.interp ++ "," ++ n2.interp) ∧
    (∀ n1 n2 : Value, n1.truthy = false ∨ n2.truthy = false →
        lbasNodes n1 n2 = "") ∧
    lbasNodes (Value.str "A2") (Value.str "B3") = "A2,B3" ∧
    lbasNodes (Value.str "A2") (normValue Value.null) = "" ∧
    lbasNodes (Value.str "A2") (Value.num 0) = "" ∧
    (∀ c lines, setPythonConfig c = some lines →
        lines.getD 38 "" = "LBASGroup1Nodes: " ++
          lbasNodes (normValue c.combatLBASGroup1Node1) (normValue c.combatLBASGroup1Node2) ∧
        lines.getD 39 "" = "LBASGroup2Nodes: " ++
          lbasNodes (normValue c.combatLBASGroup2Node1) (normValue c.combatLBASGroup2Node2) ∧
        lines.getD 40 "" = "LBASGroup3Nodes: " ++
          lbasNodes (normValue c.combatLBASGroup3Node1) (normValue c.combatLBASGroup3Node2)) := by
  refine ⟨?_, ?_, rfl, rfl, rfl, ?_⟩
  · intro n1 n2 h1 h2
    simp [lbasNodes, h1, h2]
  · intro n1 n2 h
    rcases h with h | h <;> simp [lbasNodes, h]
  · intro c lines hl
    obtain ⟨s1, s2, s3, s4, e1, e2, e3, e4, rfl⟩ := setPythonConfig_eq hl
    exact ⟨rfl, rfl, rfl⟩

/-- C5 witness: the LBAS theorem applied to node values A2/B3 (joined), to
a normalized-null second node (suppressed), and to the group-1 line of the
output of the default record. -/
theorem C5_lbas_pairs_witness :
    lbasNodes (Value.str "A2") (Value.str "B3") =
      (Value.str "A2").interp ++ "," ++ (Value.str "B3").interp ∧
    lbasNodes (Value.str "A2") (normValue Value.null) = "" ∧
    defaultLines.getD 38 "" = "LBASGroup1Nodes: " ++
      lbasNodes (normValue jsonConfigDefaults.combatLBASGroup1Node1)
        (normValue jsonConfigDefaults.combatLBASGroup1Node2) := by
  refine ⟨C5_lbas_pairs.1 _ _ (by decide) (by decide),
    C5_lbas_pairs.2.1 _ _ (Or.inr (by decide)), ?_⟩
  exact (C5_lbas_pairs.2.2.2.2.2 jsonConfigDefaults defaultLines (by rfl)).1

/-! ## C6 -/

/-- C6: each of the four option tags appears in the misc-options list iff
the corresponding raw boolean input is true; the included tags keep the
fixed declaration order (the list is always a sublist of the full tag list);
and the MiscOptions output line is their comma-join. -/
theorem C6_misc_options :
    (∀ c : Config, List.Sublist (combatOptions c)
        ["CheckFatigue", "ReserveDocks", "PortCheck", "ClearStop"]) ∧
    (∀ (c : Config) (b1 b2 b3 b4 : Bool),
        c.combatOptionCheckFatigue = Value.bool b1 →
        c.combatOptionReserveDocks = Value.bool b2 →
        c.combatOptionPortCheck = Value.bool b3 →
        c.combatOptionClearStop = Value.bool b4 →
        ("CheckFatigue" ∈ combatOptions c ↔ b1 = true) ∧
        ("ReserveDocks" ∈ combatOptions c ↔ b2 = true) ∧
        ("PortCheck" ∈ combatOptions c ↔ b3 = true) ∧
        ("ClearStop" ∈ combatOptions c ↔ b4 = true)) ∧
    (∀ c : Config,
        c.combatOptionCheckFatigue = Value.bool true →
        c.combatOptionReserveDocks = Value.bool false →
        c.combatOptionPortCheck = Value.bool true →
        c.combatOptionClearStop = Value.bool false →
        String.intercalate "," (combatOptions c) = "CheckFatigue,PortCheck") ∧
    (∀ c lines, setPythonConfig c = some lines →
        lines.getD 42 "" = "MiscOptions: " ++
          String.intercalate "," (combatOptions c)) := by
  refine ⟨?_, ?_, ?_, ?_⟩
  · intro c
    unfold combatOptions
    split_ifs <;> decide
  · intro c b1 b2 b3 b4 h1 h2 h3 h4
    unfold combatOptions
    rw [h1, h2, h3, h4]
    cases b1 <;> cases b2 <;> cases b3 <;> cases b4 <;>
      exact ⟨by decide, by decide, by decide, by decide⟩
  · intro c h1 h2 h3 h4
    unfold combatOptions
    rw [h1, h2, h3, h4]
    rfl
  · intro c lines hl
    obtain ⟨s1, s2, s3, s4, e1, e2, e3, e4, rfl⟩ := setPythonConfig_eq hl
    rfl

/-- C6 witness: the misc-options theorem applied to the default record with
CheckFatigue and PortCheck switched on. -/
theorem C6_misc_options_witness :
    String.intercalate ","
      (combatOptions { jsonConfigDefaults with
        combatOptionCheckFatigue := Value.bool true,
        combatOptionPortCheck := Value.bool true }) = "CheckFatigue,PortCheck" :=
  C6_misc_options.2.2.1 _ rfl rfl rfl rfl


/-! ## C7 -/

theorem blankSlot1_pres_slot2Criteria (ct : Config) :
    (blankSlot1 ct).shipSwitcherSlot2Criteria = ct.shipSwitcherSlot2Criteria := by
  unfold blankSlot1
  split <;> rfl

theorem blankSlot1_pres_slot2Ships (ct : Config) :
    (blankSlot1 ct).shipSwitcherSlot2Ships = ct.shipSwitcherSlot2Ships := by
  unfold blankSlot1
  split <;> rfl

theorem blankSlot1_pres_slot3Criteria (ct : Config) :
    (blankSlot1 ct).shipSwitcherSlot3Criteria = ct.shipSwitcherSlot3Criteria := by
  unfold blankSlot1
  split <;> rfl

theorem blankSlot1_pres_slot3Ships (ct : Config) :
    (blankSlot1 ct).shipSwitcherSlot3Ships = ct.shipSwitcherSlot3Ships := by
  unfold blankSlot1
  split <;> rfl

theorem blankSlot1_pres_slot4Criteria (ct : Config) :
    (blankSlot1 ct).shipSwitcherSlot4Criteria = ct.shipSwitcherSlot4Criteria := by
  unfold blankSlot1
  split <;> rfl

theorem blankSlot1_pres_slot4Ships (ct : Config) :
    (blankSlot1 ct).shipSwitcherSlot4Ships = ct.shipSwitcherSlot4Ships := by
  unfold blankSlot1
  split <;> rfl

theorem blankSlot1_pres_slot5Criteria (ct : Config) :
    (blankSlot1 ct).shipSwitcherSlot5Criteria = ct.shipSwitcherSlot5Criteria := by
  unfold blankSlot1
  split <;> rfl

theorem blankSlot1_pres_slot5Ships (ct : Config) :
    (blankSlot1 ct).shipSwitcherSlot5Ships = ct.shipSwitcherSlot5Ships := by
  unfold blankSlot1
  split <;> rfl

theorem blankSlot1_pres_slot6Criteria (ct : Config) :
    (blankSlot1 ct).shipSwitcherSlot6Criteria = ct.shipSwitcherSlot6Criteria := by
  unfold blankSlot1
  split <;> rfl

theorem blankSlot1_pres_slot6Ships (ct : Config) :
    (blankSlot1 ct).shipSwitcherSlot6Ships = ct.shipSwitcherSlot6Ships := by
  unfold blankSlot1
  split <;> rfl

theorem blankSlot2_pres_slot1Criteria (ct : Config) :
    (blankSlot2 ct).shipSwitcherSlot1Criteria = ct.shipSwitcherSlot1Criteria := by
  unfold blankSlot2
  split <;> rfl

theorem blankSlot2_pres_slot1Ships (ct : Config) :
    (blankSlot2 ct).shipSwitcherSlot1Ships = ct.shipSwitcherSlot1Ships := by
  unfold blankSlot2
  split <;> rfl

theorem blankSlot2_pres_slot3Criteria (ct : Config) :
    (blankSlot2 ct).shipSwitcherSlot3Criteria = ct.shipSwitcherSlot3Criteria := by
  unfold blankSlot2
  split <;> rfl

theorem blankSlot2_pres_slot3Ships (ct : Config) :
    (blankSlot2 ct).shipSwitcherSlot3Ships = ct.shipSwitcherSlot3Ships := by
  unfold blankSlot2
  split <;> rfl

theorem blankSlot2_pres_slot4Criteria (ct : Config) :
    (blankSlot2 ct).shipSwitcherSlot4Criteria = ct.shipSwitcherSlot4Criteria := by
  unfold blankSlot2
  split <;> rfl

theorem blankSlot2_pres_slot4Ships (ct : Config) :
    (blankSlot2 ct).shipSwitcherSlot4Ships = ct.shipSwitcherSlot4Ships := by
  unfold blankSlot2
  split <;> rfl

theorem blankSlot2_pres_slot5Criteria (ct : Config) :
    (blankSlot2 ct).shipSwitcherSlot5Criteria = ct.shipSwitcherSlot5Criteria := by
  unfold blankSlot2
  split <;> rfl

theorem blankSlot2_pres_slot5Ships (ct : Config) :
    (blankSlot2 ct).shipSwitcherSlot5Ships = ct.shipSwitcherSlot5Ships := by
  unfold blankSlot2
  split <;> rfl

theorem blankSlot2_pres_slot6Criteria (ct : Config) :
    (blankSlot2 ct).shipSwitcherSlot6Criteria = ct.shipSwitcherSlot6Criteria := by
  unfold blankSlot2
  split <;> rfl

theorem blankSlot2_pres_slot6Ships (ct : Config) :
    (blankSlot2 ct).shipSwitcherSlot6Ships = ct.shipSwitcherSlot6Ships := by
  unfold blankSlot2
  split <;> rfl

theorem blankSlot3_pres_slot1Criteria (ct : Config) :
    (blankSlot3 ct).shipSwitcherSlot1Criteria = ct.shipSwitcherSlot1Criteria := by
  unfold blankSlot3
  split <;> rfl

theorem blankSlot3_pres_slot1Ships (ct : Config) :
    (blankSlot3 ct).shipSwitcherSlot1Ships = ct.shipSwitcherSlot1Ships := by
  unfold blankSlot3
  split <;> rfl

theorem blankSlot3_pres_slot2Criteria (ct : Config) :
    (blankSlot3 ct).shipSwitcherSlot2Criteria = ct.shipSwitcherSlot2Criteria := by
  unfold blankSlot3
  split <;> rfl

theorem blankSlot3_pres_slot2Ships (ct : Config) :
    (blankSlot3 ct).shipSwitcherSlot2Ships = ct.shipSwitcherSlot2Ships := by
  unfold blankSlot3
  split <;> rfl

theorem blankSlot3_pres_slot4Criteria (ct : Config) :
    (blankSlot3 ct).shipSwitcherSlot4Criteria = ct.shipSwitcherSlot4Criteria := by
  unfold blankSlot3
  split <;> rfl

theorem blankSlot3_pres_slot4Ships (ct : Config) :
    (blankSlot3 ct).shipSwitcherSlot4Ships = ct.shipSwitcherSlot4Ships := by
  unfold blankSlot3
  split <;> rfl

theorem blankSlot3_pres_slot5Criteria (ct : Config) :
    (blankSlot3 ct).shipSwitcherSlot5Criteria = ct.shipSwitcherSlot5Criteria := by
  unfold blankSlot3
  split <;> rfl

theorem blankSlot3_pres_slot5Ships (ct : Config) :
    (blankSlot3 ct).shipSwitcherSlot5Ships = ct.shipSwitcherSlot5Ships := by
  unfold blankSlot3
  split <;> rfl

theorem blankSlot3_pres_slot6Criteria (ct : Config) :
    (blankSlot3 ct).shipSwitcherSlot6Criteria = ct.shipSwitcherSlot6Criteria := by
  unfold blankSlot3
  split <;> rfl

theorem blankSlot3_pres_slot6Ships (ct : Config) :
    (blankSlot3 ct).shipSwitcherSlot6Ships = ct.shipSwitcherSlot6Ships := by
  unfold blankSlot3
  split <;> rfl

theorem blankSlot4_pres_slot1Criteria (ct : Config) :
    (blankSlot4 ct).shipSwitcherSlot1Criteria = ct.shipSwitcherSlot1Criteria := by
  unfold blankSlot4
  split <;> rfl

theorem blankSlot4_pres_slot1Ships (ct : Config) :
    (blankSlot4 ct).shipSwitcherSlot1Ships = ct.shipSwitcherSlot1Ships := by
  unfold blankSlot4
  split <;> rfl

theorem blankSlot4_pres_slot2Criteria (ct : Config) :
    (blankSlot4 ct).shipSwitcherSlot2Criteria = ct.shipSwitcherSlot2Criteria := by
  unfold blankSlot4
  split <;> rfl

theorem blankSlot4_pres_slot2Ships (ct : Config) :
    (blankSlot4 ct).shipSwitcherSlot2Ships = ct.shipSwitcherSlot2Ships := by
  unfold blankSlot4
  split <;> rfl

theorem blankSlot4_pres_slot3Criteria (ct : Config) :
    (blankSlot4 ct).shipSwitcherSlot3Criteria = ct.shipSwitcherSlot3Criteria := by
  unfold blankSlot4
  split <;> rfl

theorem blankSlot4_pres_slot3Ships (ct : Config) :
    (blankSlot4 ct).shipSwitcherSlot3Ships = ct.shipSwitcherSlot3Ships := by
  unfold blankSlot4
  split <;> rfl

theorem blankSlot4_pres_slot5Criteria (ct : Config) :
    (blankSlot4 ct).shipSwitcherSlot5Criteria = ct.shipSwitcherSlot5Criteria := by
  unfold blankSlot4
  split <;> rfl

theorem blankSlot4_pres_slot5Ships (ct : Config) :
    (blankSlot4 ct).shipSwitcherSlot5Ships = ct.shipSwitcherSlot5Ships := by
  unfold blankSlot4
  split <;> rfl

theorem blankSlot4_pres_slot6Criteria (ct : Config) :
    (blankSlot4 ct).shipSwitcherSlot6Criteria = ct.shipSwitcherSlot6Criteria := by
  unfold blankSlot4
  split <;> rfl

theorem blankSlot4_pres_slot6Ships (ct : Config) :
    (blankSlot4 ct).shipSwitcherSlot6Ships = ct.shipSwitcherSlot6Ships := by
  unfold blankSlot4
  split <;> rfl

theorem blankSlot5_pres_slot1Criteria (ct : Config) :
    (blankSlot5 ct).shipSwitcherSlot1Criteria = ct.shipSwitcherSlot1Criteria := by
  unfold blankSlot5
  split <;> rfl

theorem blankSlot5_pres_slot1Ships (ct : Config) :
    (blankSlot5 ct).shipSwitcherSlot1Ships = ct.shipSwitcherSlot1Ships := by
  unfold blankSlot5
  split <;> rfl

theorem blankSlot5_pres_slot2Criteria (ct : Config) :
    (blankSlot5 ct).shipSwitcherSlot2Criteria = ct.shipSwitcherSlot2Criteria := by
  unfold blankSlot5
  split <;> rfl

theorem blankSlot5_pres_slot2Ships (ct : Config) :
    (blankSlot5 ct).shipSwitcherSlot2Ships = ct.shipSwitcherSlot2Ships := by
  unfold blankSlot5
  split <;> rfl

theorem blankSlot5_pres_slot3Criteria (ct : Config) :
    (blankSlot5 ct).shipSwitcherSlot3Criteria = ct.shipSwitcherSlot3Criteria := by
  unfold blankSlot5
  split <;> rfl

theorem blankSlot5_pres_slot3Ships (ct : Config) :
    (blankSlot5 ct).shipSwitcherSlot3Ships = ct.shipSwitcherSlot3Ships := by
  unfold blankSlot5
  split <;> rfl

theorem blankSlot5_pres_slot4Criteria (ct : Config) :
    (blankSlot5 ct).shipSwitcherSlot4Criteria = ct.shipSwitcherSlot4Criteria := by
  unfold blankSlot5
  split <;> rfl

theorem blankSlot5_pres_slot4Ships (ct : Config) :
    (blankSlot5 ct).shipSwitcherSlot4Ships = ct.shipSwitcherSlot4Ships := by
  unfold blankSlot5
  split <;> rfl

theorem blankSlot5_pres_slot6Criteria (ct : Config) :
    (blankSlot5 ct).shipSwitcherSlot6Criteria = ct.shipSwitcherSlot6Criteria := by
  unfold blankSlot5
  split <;> rfl

theorem blankSlot5_pres_slot6Ships (ct : Config) :
    (blankSlot5 ct).shipSwitcherSlot6Ships = ct.shipSwitcherSlot6Ships := by
  unfold blankSlot5
  split <;> rfl

theorem blankSlot6_pres_slot1Criteria (ct : Config) :
    (blankSlot6 ct).shipSwitcherSlot1Criteria = ct.shipSwitcherSlot1Criteria := by
  unfold blankSlot6
  split <;> rfl

theorem blankSlot6_pres_slot1Ships (ct : Config) :
    (blankSlot6 ct).shipSwitcherSlot1Ships = ct.shipSwitcherSlot1Ships := by
  unfold blankSlot6
  split <;> rfl

theorem blankSlot6_pres_slot2Criteria (ct : Config) :
    (blankSlot6 ct).shipSwitcherSlot2Criteria = ct.shipSwitcherSlot2Criteria := by
  unfold blankSlot6
  split <;> rfl

theorem blankSlot6_pres_slot2Ships (ct : Config) :
    (blankSlot6 ct).shipSwitcherSlot2Ships = ct.shipSwitcherSlot2Ships := by
  unfold blankSlot6
  split <;> rfl

theorem blankSlot6_pres_slot3Criteria (ct : Config) :
    (blankSlot6 ct).shipSwitcherSlot3Criteria = ct.shipSwitcherSlot3Criteria := by
  unfold blankSlot6
  split <;> rfl

theorem blankSlot6_pres_slot3Ships (ct : Config) :
    (blankSlot6 ct).shipSwitcherSlot3Ships = ct.shipSwitcherSlot3Ships := by
  unfold blankSlot6
  split <;> rfl

theorem blankSlot6_pres_slot4Criteria (ct : Config) :
    (blankSlot6 ct).shipSwitcherSlot4Criteria = ct.shipSwitcherSlot4Criteria := by
  unfold blankSlot6
  split <;> rfl

theorem blankSlot6_pres_slot4Ships (ct : Config) :
    (blankSlot6 ct).shipSwitcherSlot4Ships = ct.shipSwitcherSlot4Ships := by
  unfold blankSlot6
  split <;> rfl

theorem blankSlot6_pres_slot5Criteria (ct : Config) :
    (blankSlot6 ct).shipSwitcherSlot5Criteria = ct.shipSwitcherSlot5Criteria := by
  unfold blankSlot6
  split <;> rfl

theorem blankSlot6_pres_slot5Ships (ct : Config) :
    (blankSlot6 ct).shipSwitcherSlot5Ships = ct.shipSwitcherSlot5Ships := by
  unfold blankSlot6
  split <;> rfl

theorem blankSlot1_slot1Criteria (ct : Config) :
    (blankSlot1 ct).shipSwitcherSlot1Criteria =
      if !ct.shipSwitcherSlot1Criteria.truthy || !ct.shipSwitcherSlot1Ships.truthy
      then Value.str "" else ct.shipSwitcherSlot1Criteria := by
  unfold blankSlot1
  split <;> simp_all

theorem blankSlot1_slot1Ships (ct : Config) :
    (blankSlot1 ct).shipSwitcherSlot1Ships =
      if !ct.shipSwitcherSlot1Criteria.truthy || !ct.shipSwitcherSlot1Ships.truthy
      then Value.str "" else ct.shipSwitcherSlot1Ships := by
  unfold blankSlot1
  split <;> simp_all

theorem blankSlot2_slot2Criteria (ct : Config) :
    (blankSlot2 ct).shipSwitcherSlot2Criteria =
      if !ct.shipSwitcherSlot2Criteria.truthy || !ct.shipSwitcherSlot2Ships.truthy
      then Value.str "" else ct.shipSwitcherSlot2Criteria := by
  unfold blankSlot2
  split <;> simp_all

theorem blankSlot2_slot2Ships (ct : Config) :
    (blankSlot2 ct).shipSwitcherSlot2Ships =
      if !ct.shipSwitcherSlot2Criteria.truthy || !ct.shipSwitcherSlot2Ships.truthy
      then Value.str "" else ct.shipSwitcherSlot2Ships := by
  unfold blankSlot2
  split <;> simp_all

theorem blankSlot3_slot3Criteria (ct : Config) :
    (blankSlot3 ct).shipSwitcherSlot3Criteria =
      if !ct.shipSwitcherSlot3Criteria.truthy || !ct.shipSwitcherSlot3Ships.truthy
      then Value.str "" else ct.shipSwitcherSlot3Criteria := by
  unfold blankSlot3
  split <;> simp_all

theorem blankSlot3_slot3Ships (ct : Config) :
    (blankSlot3 ct).shipSwitcherSlot3Ships =
      if !ct.shipSwitcherSlot3Criteria.truthy || !ct.shipSwitcherSlot3Ships.truthy
      then Value.str "" else ct.shipSwitcherSlot3Ships := by
  unfold blankSlot3
  split <;> simp_all

theorem blankSlot4_slot4Criteria (ct : Config) :
    (blankSlot4 ct).shipSwitcherSlot4Criteria =
      if !ct.shipSwitcherSlot4Criteria.truthy || !ct.shipSwitcherSlot4Ships.truthy
      then Value.str "" else ct.shipSwitcherSlot4Criteria := by
  unfold blankSlot4
  split <;> simp_all

theorem blankSlot4_slot4Ships (ct : Config) :
    (blankSlot4 ct).shipSwitcherSlot4Ships =
      if !ct.shipSwitcherSlot4Criteria.truthy || !ct.shipSwitcherSlot4Ships.truthy
      then Value.str "" else ct.shipSwitcherSlot4Ships := by
  unfold blankSlot4
  split <;> simp_all

theorem blankSlot5_slot5Criteria (ct : Config) :
    (blankSlot5 ct).shipSwitcherSlot5Criteria =
      if !ct.shipSwitcherSlot5Criteria.truthy || !ct.shipSwitcherSlot5Ships.truthy
      then Value.str "" else ct.shipSwitcherSlot5Criteria := by
  unfold blankSlot5
  split <;> simp_all

theorem blankSlot5_slot5Ships (ct : Config) :
    (blankSlot5 ct).shipSwitcherSlot5Ships =
      if !ct.shipSwitcherSlot5Criteria.truthy || !ct.shipSwitcherSlot5Ships.truthy
      then Value.str "" else ct.shipSwitcherSlot5Ships := by
  unfold blankSlot5
  split <;> simp_all

theorem blankSlot6_slot6Criteria (ct : Config) :
    (blankSlot6 ct).shipSwitcherSlot6Criteria =
      if !ct.shipSwitcherSlot6Criteria.truthy || !ct.shipSwitcherSlot6Ships.truthy
      then Value.str "" else ct.shipSwitcherSlot6Criteria := by
  unfold blankSlot6
  split <;> simp_all

theorem blankSlot6_slot6Ships (ct : Config) :
    (blankSlot6 ct).shipSwitcherSlot6Ships =
      if !ct.shipSwitcherSlot6Criteria.truthy || !ct.shipSwitcherSlot6Ships.truthy
      then Value.str "" else ct.shipSwitcherSlot6Ships := by
  unfold blankSlot6
  split <;> simp_all

theorem blankSlots_slot1Criteria (ct : Config) :
    (blankSlots ct).shipSwitcherSlot1Criteria =
      if !ct.shipSwitcherSlot1Criteria.truthy || !ct.shipSwitcherSlot1Ships.truthy
      then Value.str "" else ct.shipSwitcherSlot1Criteria := by
  unfold blankSlots
  rw [blankSlot6_pres_slot1Criteria, blankSlot5_pres_slot1Criteria, blankSlot4_pres_slot1Criteria, blankSlot3_pres_slot1Criteria, blankSlot2_pres_slot1Criteria, blankSlot1_slot1Criteria]

theorem blankSlots_slot1Ships (ct : Config) :
    (blankSlots ct).shipSwitcherSlot1Ships =
      if !ct.shipSwitcherSlot1Criteria.truthy || !ct.shipSwitcherSlot1Ships.truthy
      then Value.str "" else ct.shipSwitcherSlot1Ships := by
  unfold blankSlots
  rw [blankSlot6_pres_slot1Ships, blankSlot5_pres_slot1Ships, blankSlot4_pres_slot1Ships, blankSlot3_pres_slot1Ships, blankSlot2_pres_slot1Ships, blankSlot1_slot1Ships]

theorem blankSlots_slot2Criteria (ct : Config) :
    (blankSlots ct).shipSwitcherSlot2Criteria =
      if !ct.shipSwitcherSlot2Criteria.truthy || !ct.shipSwitcherSlot2Ships.truthy
      then Value.str "" else ct.shipSwitcherSlot2Criteria := by
  unfold blankSlots
  rw [blankSlot6_pres_slot2Criteria, blankSlot5_pres_slot2Criteria, blankSlot4_pres_slot2Criteria, blankSlot3_pres_slot2Criteria, blankSlot2_slot2Criteria, blankSlot1_pres_slot2Criteria, blankSlot1_pres_slot2Ships]

theorem blankSlots_slot2Ships (ct : Config) :
    (blankSlots ct).shipSwitcherSlot2Ships =
      if !ct.shipSwitcherSlot2Criteria.truthy || !ct.shipSwitcherSlot2Ships.truthy
      then Value.str "" else ct.shipSwitcherSlot2Ships := by
  unfold blankSlots
  rw [blankSlot6_pres_slot2Ships, blankSlot5_pres_slot2Ships, blankSlot4_pres_slot2Ships, blankSlot3_pres_slot2Ships, blankSlot2_slot2Ships, blankSlot1_pres_slot2Criteria, blankSlot1_pres_slot2Ships]

theorem blankSlots_slot3Criteria (ct : Config) :
    (blankSlots ct).shipSwitcherSlot3Criteria =
      if !ct.shipSwitcherSlot3Criteria.truthy || !ct.shipSwitcherSlot3Ships.truthy
      then Value.str "" else ct.shipSwitcherSlot3Criteria := by
  unfold blankSlots
  rw [blankSlot6_pres_slot3Criteria, blankSlot5_pres_slot3Criteria, blankSlot4_pres_slot3Criteria, blankSlot3_slot3Criteria, blankSlot2_pres_slot3Criteria, blankSlot2_pres_slot3Ships, blankSlot1_pres_slot3Criteria, blankSlot1_pres_slot3Ships]

theorem blankSlots_slot3Ships (ct : Config) :
    (blankSlots ct).shipSwitcherSlot3Ships =
      if !ct.shipSwitcherSlot3Criteria.truthy || !ct.shipSwitcherSlot3Ships.truthy
      then Value.str "" else ct.shipSwitcherSlot3Ships := by
  unfold blankSlots
  rw [blankSlot6_pres_slot3Ships, blankSlot5_pres_slot3Ships, blankSlot4_pres_slot3Ships, blankSlot3_slot3Ships, blankSlot2_pres_slot3Criteria, blankSlot2_pres_slot3Ships, blankSlot1_pres_slot3Criteria, blankSlot1_pres_slot3Ships]

theorem blankSlots_slot4Criteria (ct : Config) :
    (blankSlots ct).shipSwitcherSlot4Criteria =
      if !ct.shipSwitcherSlot4Criteria.truthy || !ct.shipSwitcherSlot4Ships.truthy
      then Value.str "" else ct.shipSwitcherSlot4Criteria := by
  unfold blankSlots
  rw [blankSlot6_pres_slot4Criteria, blankSlot5_pres_slot4Criteria, blankSlot4_slot4Criteria, blankSlot3_pres_slot4Criteria, blankSlot3_pres_slot4Ships, blankSlot2_pres_slot4Criteria, blankSlot2_pres_slot4Ships, blankSlot1_pres_slot4Criteria, blankSlot1_pres_slot4Ships]

theorem blankSlots_slot4Ships (ct : Config) :
    (blankSlots ct).shipSwitcherSlot4Ships =
      if !ct.shipSwitcherSlot4Criteria.truthy || !ct.shipSwitcherSlot4Ships.truthy
      then Value.str "" else ct.shipSwitcherSlot4Ships := by
  unfold blankSlots
  rw [blankSlot6_pres_slot4Ships, blankSlot5_pres_slot4Ships, blankSlot4_slot4Ships, blankSlot3_pres_slot4Criteria, blankSlot3_pres_slot4Ships, blankSlot2_pres_slot4Criteria, blankSlot2_pres_slot4Ships, blankSlot1_pres_slot4Criteria, blankSlot1_pres_slot4Ships]

theorem blankSlots_slot5Criteria (ct : Config) :
    (blankSlots ct).shipSwitcherSlot5Criteria =
      if !ct.shipSwitcherSlot5Criteria.truthy || !ct.shipSwitcherSlot5Ships.truthy
      then Value.str "" else ct.shipSwitcherSlot5Criteria := by
  unfold blankSlots
  rw [blankSlot6_pres_slot5Criteria, blankSlot5_slot5Criteria, blankSlot4_pres_slot5Criteria, blankSlot4_pres_slot5Ships, blankSlot3_pres_slot5Criteria, blankSlot3_pres_slot5Ships, blankSlot2_pres_slot5Criteria, blankSlot2_pres_slot5Ships, blankSlot1_pres_slot5Criteria, blankSlot1_pres_slot5Ships]

theorem blankSlots_slot5Ships (ct : Config) :
    (blankSlots ct).shipSwitcherSlot5Ships =
      if !ct.shipSwitcherSlot5Criteria.truthy || !ct.shipSwitcherSlot5Ships.truthy
      then Value.str "" else ct.shipSwitcherSlot5Ships := by
  unfold blankSlots
  rw [blankSlot6_pres_slot5Ships, blankSlot5_slot5Ships, blankSlot4_pres_slot5Criteria, blankSlot4_pres_slot5Ships, blankSlot3_pres_slot5Criteria, blankSlot3_pres_slot5Ships, blankSlot2_pres_slot5Criteria, blankSlot2_pres_slot5Ships, blankSlot1_pres_slot5Criteria, blankSlot1_pres_slot5Ships]

theorem blankSlots_slot6Criteria (ct : Config) :
    (blankSlots ct).shipSwitcherSlot6Criteria =
      if !ct.shipSwitcherSlot6Criteria.truthy || !ct.shipSwitcherSlot6Ships.truthy
      then Value.str "" else ct.shipSwitcherSlot6Criteria := by
  unfold blankSlots
  rw [blankSlot6_slot6Criteria, blankSlot5_pres_slot6Criteria, blankSlot5_pres_slot6Ships, blankSlot4_pres_slot6Criteria, blankSlot4_pres_slot6Ships, blankSlot3_pres_slot6Criteria, blankSlot3_pres_slot6Ships, blankSlot2_pres_slot6Criteria, blankSlot2_pres_slot6Ships, blankSlot1_pres_slot6Criteria, blankSlot1_pres_slot6Ships]

theorem blankSlots_slot6Ships (ct : Config) :
    (blankSlots ct).shipSwitcherSlot6Ships =
      if !ct.shipSwitcherSlot6Criteria.truthy || !ct.shipSwitcherSlot6Ships.truthy
      then Value.str "" else ct.shipSwitcherSlot6Ships := by
  unfold blankSlots
  rw [blankSlot6_slot6Ships, blankSlot5_pres_slot6Criteria, blankSlot5_pres_slot6Ships, blankSlot4_pres_slot6Criteria, blankSlot4_pres_slot6Ships, blankSlot3_pres_slot6Criteria, blankSlot3_pres_slot6Ships, blankSlot2_pres_slot6Criteria, blankSlot2_pres_slot6Ships, blankSlot1_pres_slot6Criteria, blankSlot1_pres_slot6Ships]

/-- C7: for each ship-switcher slot independently, if either the criteria
or the ships value of the slot is falsy after normalization both output fields of
the slot are the empty string, and otherwise both pass through unchanged;
a slot is fully specified or fully blank, never half-filled. -/
theorem C7_slot_pairing :
    ∀ ct : Config,
      ((ct.shipSwitcherSlot1Criteria.truthy = false ∨ ct.shipSwitcherSlot1Ships.truthy = false) →
        (blankSlots ct).shipSwitcherSlot1Criteria = Value.str "" ∧
        (blankSlots ct).shipSwitcherSlot1Ships = Value.str "") ∧
      (ct.shipSwitcherSlot1Criteria.truthy = true → ct.shipSwitcherSlot1Ships.truthy = true →
        (blankSlots ct).shipSwitcherSlot1Criteria = ct.shipSwitcherSlot1Criteria ∧
        (blankSlots ct).shipSwitcherSlot1Ships = ct.shipSwitcherSlot1Ships) ∧
      ((ct.shipSwitcherSlot2Criteria.truthy = false ∨ ct.shipSwitcherSlot2Ships.truthy = false) →
        (blankSlots ct).shipSwitcherSlot2Criteria = Value.str "" ∧
        (blankSlots ct).shipSwitcherSlot2Ships = Value.str "") ∧
      (ct.shipSwitcherSlot2Criteria.truthy = true → ct.shipSwitcherSlot2Ships.truthy = true →
        (blankSlots ct).shipSwitcherSlot2Criteria = ct.shipSwitcherSlot2Criteria ∧
        (blankSlots ct).shipSwitcherSlot2Ships = ct.shipSwitcherSlot2Ships) ∧
      ((ct.shipSwitcherSlot3Criteria.truthy = false ∨ ct.shipSwitcherSlot3Ships.truthy = false) →
        (blankSlots ct).shipSwitcherSlot3Criteria = Value.str "" ∧
        (blankSlots ct).shipSwitcherSlot3Ships = Value.str "") ∧
      (ct.shipSwitcherSlot3Criteria.truthy = true → ct.shipSwitcherSlot3Ships.truthy = true →
        (blankSlots ct).shipSwitcherSlot3Criteria = ct.shipSwitcherSlot3Criteria ∧
        (blankSlots ct).shipSwitcherSlot3Ships = ct.shipSwitcherSlot3Ships) ∧
      ((ct.shipSwitcherSlot4Criteria.truthy = false ∨ ct.shipSwitcherSlot4Ships.truthy = false) →
        (blankSlots ct).shipSwitcherSlot4Criteria = Value.str "" ∧
        (blankSlots ct).shipSwitcherSlot4Ships = Value.str "") ∧
      (ct.shipSwitcherSlot4Criteria.truthy = true → ct.shipSwitcherSlot4Ships.truthy = true →
        (blankSlots ct).shipSwitcherSlot4Criteria = ct.shipSwitcherSlot4Criteria ∧
        (blankSlots ct).shipSwitcherSlot4Ships = ct.shipSwitcherSlot4Ships) ∧
      ((ct.shipSwitcherSlot5Criteria.truthy = false ∨ ct.shipSwitcherSlot5Ships.truthy = false) →
        (blankSlots ct).shipSwitcherSlot5Criteria = Value.str "" ∧
        (blankSlots ct).shipSwitcherSlot5Ships = Value.str "") ∧
      (ct.shipSwitcherSlot5Criteria.truthy = true → ct.shipSwitcherSlot5Ships.truthy = true →
        (blankSlots ct).shipSwitcherSlot5Criteria = ct.shipSwitcherSlot5Criteria ∧
        (blankSlots ct).shipSwitcherSlot5Ships = ct.shipSwitcherSlot5Ships) ∧
      ((ct.shipSwitcherSlot6Criteria.truthy = false ∨ ct.shipSwitcherSlot6Ships.truthy = false) →
        (blankSlots ct).shipSwitcherSlot6Criteria = Value.str "" ∧
        (blankSlots ct).shipSwitcherSlot6Ships = Value.str "") ∧
      (ct.shipSwitcherSlot6Criteria.truthy = true → ct.shipSwitcherSlot6Ships.truthy = true →
        (blankSlots ct).shipSwitcherSlot6Criteria = ct.shipSwitcherSlot6Criteria ∧
        (blankSlots ct).shipSwitcherSlot6Ships = ct.shipSwitcherSlot6Ships) := by
  refine fun ct => ⟨?_, ?_, ?_, ?_, ?_, ?_, ?_, ?_, ?_, ?_, ?_, ?_⟩
  · intro h
    rw [blankSlots_slot1Criteria, blankSlots_slot1Ships]
    rcases h with h | h <;> simp [h]
  · intro h1 h2
    rw [blankSlots_slot1Criteria, blankSlots_slot1Ships]
    simp [h1, h2]
  · intro h
    rw [blankSlots_slot2Criteria, blankSlots_slot2Ships]
    rcases h with h | h <;> simp [h]
  · intro h1 h2
    rw [blankSlots_slot2Criteria, blankSlots_slot2Ships]
    simp [h1, h2]
  · intro h
    rw [blankSlots_slot3Criteria, blankSlots_slot3Ships]
    rcases h with h | h <;> simp [h]
  · intro h1 h2
    rw [blankSlots_slot3Criteria, blankSlots_slot3Ships]
    simp [h1, h2]
  · intro h
    rw [blankSlots_slot4Criteria, blankSlots_slot4Ships]
    rcases h with h | h <;> simp [h]
  · intro h1 h2
    rw [blankSlots_slot4Criteria, blankSlots_slot4Ships]
    simp [h1, h2]
  · intro h
    rw [blankSlots_slot5Criteria, blankSlots_slot5Ships]
    rcases h with h | h <;> simp [h]
  · intro h1 h2
    rw [blankSlots_slot5Criteria, blankSlots_slot5Ships]
    simp [h1, h2]
  · intro h
    rw [blankSlots_slot6Criteria, blankSlots_slot6Ships]
    rcases h with h | h <;> simp [h]
  · intro h1 h2
    rw [blankSlots_slot6Criteria, blankSlots_slot6Ships]
    simp [h1, h2]

/-- C7 witness: the pairing theorem applied to a record whose slot 1 has a
criteria but null ships (blanked) and whose slot 2 is fully specified
(passed through). -/
theorem C7_slot_pairing_witness :
    (blankSlots { jsonConfigDefaults with
        shipSwitcherSlot1Criteria := Value.str "Cond",
        shipSwitcherSlot2Criteria := Value.str "Cond",
        shipSwitcherSlot2Ships := Value.str "ShipA" }).shipSwitcherSlot1Criteria =
      Value.str "" ∧
    (blankSlots { jsonConfigDefaults with
        shipSwitcherSlot1Criteria := Value.str "Cond",
        shipSwitcherSlot2Criteria := Value.str "Cond",
        shipSwitcherSlot2Ships := Value.str "ShipA" }).shipSwitcherSlot2Criteria =
      Value.str "Cond" := by
  constructor
  · exact ((C7_slot_pairing _).1 (Or.inr (by decide))).1
  · exact ((C7_slot_pairing _).2.2.2.1 (by decide) (by decide)).1

/-! ## C8 -/

/-- C8: each reducer replaces its state wholesale with the carried config on
its designated set-action, returns the state unchanged on any other action,
and its initial (absent) state defaults to the full default ConfigRecord
resp. the empty sequence. -/
theorem C8_reducers :
    (∀ (s : Option Config) (a : ReduxAction Config),
        a.type = ActionType.SET_JSON_CONFIG → jsonConfig s a = a.config) ∧
    (∀ (s : Config) (a : ReduxAction Config),
        a.type ≠ ActionType.SET_JSON_CONFIG → jsonConfig (some s) a = s) ∧
    (∀ a : ReduxAction Config,
        a.type ≠ ActionType.SET_JSON_CONFIG → jsonConfig none a = jsonConfigDefaults) ∧
    (∀ (s : Option (List String)) (a : ReduxAction (List String)),
        a.type = ActionType.SET_PYTHON_CONFIG → pythonConfig s a = a.config) ∧
    (∀ (s : List String) (a : ReduxAction (List String)),
        a.type ≠ ActionType.SET_PYTHON_CONFIG → pythonConfig (some s) a = s) ∧
    (∀ a : ReduxAction (List String),
        a.type ≠ ActionType.SET_PYTHON_CONFIG → pythonConfig none a = []) := by
  refine ⟨?_, ?_, ?_, ?_, ?_, ?_⟩
  · intro s a h
    rcases a with ⟨t, cfg⟩
    cases t <;> simp_all [jsonConfig]
  · intro s a h
    rcases a with ⟨t, cfg⟩
    cases t <;> simp_all [jsonConfig]
  · intro a h
    rcases a with ⟨t, cfg⟩
    cases t <;> simp_all [jsonConfig]
  · intro s a h
    rcases a with ⟨t, cfg⟩
    cases t <;> simp_all [pythonConfig]
  · intro s a h
    rcases a with ⟨t, cfg⟩
    cases t <;> simp_all [pythonConfig]
  · intro a h
    rcases a with ⟨t, cfg⟩
    cases t <;> simp_all [pythonConfig]

/-- C8 witness: the reducer theorem applied to one set-action, one foreign
action on a populated state, and one foreign action on the absent initial
state. -/
theorem C8_reducers_witness :
    jsonConfig none (setJsonConfigSuccess jsonConfigDefaults) = jsonConfigDefaults ∧
    pythonConfig (some ["x"]) { type := ActionType.other "NOP", config := [] } = ["x"] ∧
    pythonConfig none { type := ActionType.SET_JSON_CONFIG, config := ["y"] } = [] := by
  refine ⟨C8_reducers.1 none (setJsonConfigSuccess jsonConfigDefaults) rfl, ?_, ?_⟩
  · exact C8_reducers.2.2.2.2.1 ["x"] _ (by simp)
  · exact C8_reducers.2.2.2.2.2 _ (by simp)

/-! ## C10 -/

theorem pythonConfigArray_getD46 (ct : Config) (s1 s2 s3 s4 g1 g2 g3 : String)
    (o : List String) :
    (pythonConfigArray ct s1 s2 s3 s4 g1 g2 g3 o).getD 46 "" =
      "Slot1Criteria: " ++ ct.shipSwitcherSlot1Criteria.interp := rfl

/-- C10: the slot-blanking test runs on the normalized values, and boolean
false normalizes to the truthy text False; hence a slot whose criteria is
boolean false and whose ships value normalizes truthy is NOT blanked and its
criteria line prints False, and the only values whose normalization is falsy
are null, the empty string and the number zero. -/
theorem C10_false_not_blanked :
    (∀ v : Value, (normValue v).truthy = false ↔
        v = Value.null ∨ v = Value.str "" ∨ v = Value.num 0) ∧
    (normValue (Value.bool false)).truthy = true ∧
    (∀ c lines, setPythonConfig c = some lines →
        c.shipSwitcherSlot1Criteria = Value.bool false →
        (normValue c.shipSwitcherSlot1Ships).truthy = true →
        lines.getD 46 "" = "Slot1Criteria: " ++ "False") := by
  refine ⟨?_, rfl, ?_⟩
  · intro v
    rcases v with _ | b | s | n | ⟨h, m⟩
    · simp [normValue, Value.truthy]
    · cases b <;> simp [normValue, Value.truthy]
    · simp [normValue, Value.truthy]
    · simp [normValue, Value.truthy]
    · simp [normValue, Value.truthy]
  · intro c lines hl hcrit hships
    obtain ⟨s1, s2, s3, s4, e1, e2, e3, e4, rfl⟩ := setPythonConfig_eq hl
    rw [pythonConfigArray_getD46, blankSlots_slot1Criteria]
    have hnc : (normConfig c).shipSwitcherSlot1Criteria =
        normValue c.shipSwitcherSlot1Criteria := rfl
    have hns : (normConfig c).shipSwitcherSlot1Ships =
        normValue c.shipSwitcherSlot1Ships := rfl
    rw [hnc, hns, hcrit, hships]
    rfl

/-- C10 witness: the theorem applied to `c10Config`. -/
theorem C10_false_not_blanked_witness :
    ((setPythonConfig c10Config).getD []).getD 46 "" =
      "Slot1Criteria: " ++ "False" :=
  C10_false_not_blanked.2.2 c10Config ((setPythonConfig c10Config).getD [])
    (by rfl) (by rfl) (by decide)
